import Mathlib

/-!
Verification development for the Shopify→WhatsApp webhook server
(`src/server.js`).

The server is shallowly embedded: byte strings are `List Nat` (each entry a
byte value), JavaScript's dynamic JSON values are the `Json` inductive below,
and the platform primitives the code calls are modelled executably from their
public definitions:

* `crypto.createHmac('sha256', secret).update(data,'utf8').digest('base64')`
  — HMAC-SHA-256 (FIPS 198 / FIPS 180-4) followed by base64; implemented
  bit-for-bit below (`sha256`, `hmacSHA256`, `base64Encode`) and validated
  against the published test vectors (`sha256 "abc"`, RFC 4231 case 2).
* `Buffer.from(s, 'base64')` — Node's forgiving base64 decoder, modelled for
  the standard alphabet: non-alphabet characters (including `=` padding) are
  skipped, trailing groups of 2 or 3 characters decode to 1 or 2 bytes, a
  lone trailing character is dropped (`base64DecodeNode`).
* `crypto.timingSafeEqual(a, b)` — byte-wise equality, throwing when the
  buffer lengths differ (the throw is caught by the server and treated as
  verification failure).

All definitions are structurally recursive (fuel-indexed where the data is
nested), so every concrete instance evaluates inside the kernel.
-/

/-- UTF-8 bytes of a string. All strings hashed in this development are
ASCII, where a character's code point is its single byte. -/
def strBytes (s : String) : List Nat :=
  s.data.map Char.toNat

/-! ## SHA-256 (FIPS 180-4) -/

/-- 2^32, the word modulus of SHA-256. -/
def M32 : Nat := 4294967296

/-- Right rotation of a 32-bit word. -/
def rotr (n x : Nat) : Nat :=
  ((x >>> n) ||| (x <<< (32 - n))) % M32

/-- The SHA-256 `Ch` function; `¬x` is complement within 32 bits. -/
def shaCh (x y z : Nat) : Nat :=
  (x &&& y) ^^^ ((x ^^^ 4294967295) &&& z)

/-- The SHA-256 `Maj` function. -/
def shaMaj (x y z : Nat) : Nat :=
  (x &&& y) ^^^ (x &&& z) ^^^ (y &&& z)

/-- Σ₀ of FIPS 180-4. -/
def bigSigma0 (x : Nat) : Nat :=
  rotr 2 x ^^^ rotr 13 x ^^^ rotr 22 x

/-- Σ₁ of FIPS 180-4. -/
def bigSigma1 (x : Nat) : Nat :=
  rotr 6 x ^^^ rotr 11 x ^^^ rotr 25 x

/-- σ₀ of FIPS 180-4. -/
def smallSigma0 (x : Nat) : Nat :=
  rotr 7 x ^^^ rotr 18 x ^^^ (x >>> 3)

/-- σ₁ of FIPS 180-4. -/
def smallSigma1 (x : Nat) : Nat :=
  rotr 17 x ^^^ rotr 19 x ^^^ (x >>> 10)

/-- Fueled binary search for the integer cube root (largest `x` with
`x³ ≤ n`); structural on the fuel so it reduces in the kernel. -/
def icbrtAux (n : Nat) : Nat → Nat → Nat → Nat
  | 0, lo, _ => lo
  | f + 1, lo, hi =>
    let mid := (lo + hi) / 2
    if mid = lo then lo
    else if mid ^ 3 ≤ n then icbrtAux n f mid hi
    else icbrtAux n f lo mid

/-- Integer cube root. -/
def icbrt (n : Nat) : Nat :=
  icbrtAux n 200 0 (n + 1)

/-- The first 64 primes, whose cube roots generate the SHA-256 round
constants. -/
def first64Primes : List Nat :=
  [2, 3, 5, 7, 11, 13, 17, 19, 23, 29,
   31, 37, 41, 43, 47, 53, 59, 61, 67, 71,
   73, 79, 83, 89, 97, 101, 103, 107, 109, 113,
   127, 131, 137, 139, 149, 151, 157, 163, 167, 173,
   179, 181, 191, 193, 197, 199, 211, 223, 227, 229,
   233, 239, 241, 251, 257, 263, 269, 271, 277, 281,
   283, 293, 307, 311]

/-- The SHA-256 round constants: the first 32 bits of the fractional parts
of the cube roots of the first 64 primes (FIPS 180-4 §4.2.2). -/
def shaK : List Nat :=
  first64Primes.map (fun p => icbrt (p * 2 ^ 96) % M32)

/-- The SHA-256 initial hash value (FIPS 180-4 §5.3.3). -/
def shaH0 : List Nat :=
  [0x6a09e667, 0xbb67ae85, 0x3c6ef372, 0xa54ff53a,
   0x510e527f, 0x9b05688c, 0x1f83d9ab, 0x5be0cd19]

/-- Big-endian 4-byte grouping of a byte list into 32-bit words. -/
def bytesToWords : List Nat → List Nat
  | a :: b :: c :: d :: rest =>
    (a * 16777216 + b * 65536 + c * 256 + d) :: bytesToWords rest
  | _ => []

/-- Big-endian bytes of a 32-bit word list (4 bytes per word). -/
def wordsToBytes : List Nat → List Nat
  | [] => []
  | w :: rest =>
    w / 16777216 % 256 :: w / 65536 % 256 :: w / 256 % 256 :: w % 256 ::
      wordsToBytes rest

/-- Message-schedule extension: appends words `W₁₆ … W₆₃` (fuel 48). -/
def schedExt : Nat → List Nat → List Nat
  | 0, w => w
  | f + 1, w =>
    let t := w.length
    schedExt f (w ++ [(smallSigma1 (w.getD (t - 2) 0) + w.getD (t - 7) 0 +
      smallSigma0 (w.getD (t - 15) 0) + w.getD (t - 16) 0) % M32])

/-- The eight working variables of a SHA-256 compression round. -/
structure ShaState where
  a : Nat
  b : Nat
  c : Nat
  d : Nat
  e : Nat
  f : Nat
  g : Nat
  h : Nat

/-- One SHA-256 round; `kw` pairs the round constant with the scheduled
word. -/
def shaRound (st : ShaState) (kw : Nat × Nat) : ShaState :=
  let t1 := (st.h + bigSigma1 st.e + shaCh st.e st.f st.g + kw.1 + kw.2) % M32
  let t2 := (bigSigma0 st.a + shaMaj st.a st.b st.c) % M32
  ⟨(t1 + t2) % M32, st.a, st.b, st.c, (st.d + t1) % M32, st.e, st.f, st.g⟩

/-- SHA-256 compression of one 64-byte block into the running 8-word hash
state. -/
def shaCompress (hs : List Nat) (block : List Nat) : List Nat :=
  let w := schedExt 48 (bytesToWords block)
  let st0 : ShaState :=
    ⟨hs.getD 0 0, hs.getD 1 0, hs.getD 2 0, hs.getD 3 0,
     hs.getD 4 0, hs.getD 5 0, hs.getD 6 0, hs.getD 7 0⟩
  let st := (shaK.zip w).foldl shaRound st0
  [(st0.a + st.a) % M32, (st0.b + st.b) % M32, (st0.c + st.c) % M32,
   (st0.d + st.d) % M32, (st0.e + st.e) % M32, (st0.f + st.f) % M32,
   (st0.g + st.g) % M32, (st0.h + st.h) % M32]

/-- The 8-byte big-endian encoding of the message bit length. -/
def lenBE8 (n : Nat) : List Nat :=
  [n / 2 ^ 56 % 256, n / 2 ^ 48 % 256, n / 2 ^ 40 % 256, n / 2 ^ 32 % 256,
   n / 2 ^ 24 % 256, n / 2 ^ 16 % 256, n / 2 ^ 8 % 256, n % 256]

/-- SHA-256 padding: `0x80`, zeros to 56 mod 64, then the 64-bit length. -/
def sha256pad (m : List Nat) : List Nat :=
  let k := (64 - (m.length + 9) % 64) % 64
  m ++ 128 :: List.replicate k 0 ++ lenBE8 (m.length * 8)

/-- Fueled split into 64-byte blocks. -/
def chunks64 : Nat → List Nat → List (List Nat)
  | 0, _ => []
  | _, [] => []
  | f + 1, l => l.take 64 :: chunks64 f (l.drop 64)

/-- SHA-256 of a byte list, as 32 bytes. -/
def sha256 (m : List Nat) : List Nat :=
  let padded := sha256pad m
  wordsToBytes ((chunks64 padded.length padded).foldl shaCompress shaH0)

/-- HMAC-SHA-256 (FIPS 198): what
`crypto.createHmac('sha256', secret).update(data)` digests. -/
def hmacSHA256 (key msg : List Nat) : List Nat :=
  let k0 := if 64 < key.length then sha256 key else key
  let kp := k0 ++ List.replicate (64 - k0.length) 0
  sha256 ((kp.map (fun b => b ^^^ 0x5c)) ++
    sha256 ((kp.map (fun b => b ^^^ 0x36)) ++ msg))

set_option maxRecDepth 100000

/-- FIPS 180-4 test vector: SHA-256 of `"abc"`. -/
example : sha256 (strBytes "abc") =
    [0xba, 0x78, 0x16, 0xbf, 0x8f, 0x01, 0xcf, 0xea,
     0x41, 0x41, 0x40, 0xde, 0x5d, 0xae, 0x22, 0x23,
     0xb0, 0x03, 0x61, 0xa3, 0x96, 0x17, 0x7a, 0x9c,
     0xb4, 0x10, 0xff, 0x61, 0xf2, 0x00, 0x15, 0xad] := by decide

/-- FIPS 180-4 test vector: SHA-256 of the empty message. -/
example : sha256 [] =
    [0xe3, 0xb0, 0xc4, 0x42, 0x98, 0xfc, 0x1c, 0x14,
     0x9a, 0xfb, 0xf4, 0xc8, 0x99, 0x6f, 0xb9, 0x24,
     0x27, 0xae, 0x41, 0xe4, 0x64, 0x9b, 0x93, 0x4c,
     0xa4, 0x95, 0x99, 0x1b, 0x78, 0x52, 0xb8, 0x55] := by decide

/-- RFC 4231 test case 2: HMAC-SHA-256 with key `"Jefe"`. -/
example : hmacSHA256 (strBytes "Jefe")
      (strBytes "what do ya want for nothing?") =
    [0x5b, 0xdc, 0xc1, 0x46, 0xbf, 0x60, 0x75, 0x4e,
     0x6a, 0x04, 0x24, 0x26, 0x08, 0x95, 0x75, 0xc7,
     0x5a, 0x00, 0x3f, 0x08, 0x9d, 0x27, 0x39, 0x83,
     0x9d, 0xec, 0x58, 0xb9, 0x64, 0xec, 0x38, 0x43] := by decide

/-! ## Base64 -/

/-- The standard base64 alphabet character for a 6-bit value. -/
def b64Chr (n : Nat) : Char :=
  if n < 26 then Char.ofNat (65 + n)
  else if n < 52 then Char.ofNat (97 + (n - 26))
  else if n < 62 then Char.ofNat (48 + (n - 52))
  else if n = 62 then '+'
  else '/'

/-- The 6-bit value of a base64 alphabet character; `none` for everything
else (including the `=` pad, which carries no bits). -/
def b64Val (c : Char) : Option Nat :=
  if 'A' ≤ c ∧ c ≤ 'Z' then some (c.toNat - 65)
  else if 'a' ≤ c ∧ c ≤ 'z' then some (c.toNat - 71)
  else if '0' ≤ c ∧ c ≤ '9' then some (c.toNat + 4)
  else if c = '+' then some 62
  else if c = '/' then some 63
  else none

/-- Canonical (padded) base64 encoding of a byte list, as characters. -/
def b64EncChars : List Nat → List Char
  | [] => []
  | [a] => [b64Chr (a / 4), b64Chr (a % 4 * 16), '=', '=']
  | [a, b] => [b64Chr (a / 4), b64Chr (a % 4 * 16 + b / 16), b64Chr (b % 16 * 4), '=']
  | a :: b :: c :: rest =>
    b64Chr (a / 4) :: b64Chr (a % 4 * 16 + b / 16) :: b64Chr (b % 16 * 4 + c / 64) ::
      b64Chr (c % 64) :: b64EncChars rest

/-- Canonical base64 encoding of a byte list: the output of
`hmac.digest('base64')`. -/
def base64Encode (l : List Nat) : String :=
  String.mk (b64EncChars l)

/-- Reassembles bytes from a stream of 6-bit values; a trailing group of 2
or 3 values yields 1 or 2 bytes, a lone value is dropped — the forgiving
grouping Node's base64 decoder uses. -/
def b64DecVals : List Nat → List Nat
  | [] => []
  | [_] => []
  | [v0, v1] => [v0 * 4 + v1 / 16]
  | [v0, v1, v2] => [v0 * 4 + v1 / 16, v1 % 16 * 16 + v2 / 4]
  | v0 :: v1 :: v2 :: v3 :: rest =>
    (v0 * 4 + v1 / 16) :: (v1 % 16 * 16 + v2 / 4) :: (v2 % 4 * 64 + v3) ::
      b64DecVals rest

/-- Model of `Buffer.from(s, 'base64')`: characters outside the base64
alphabet (whitespace, `=` padding, garbage) are skipped, then the 6-bit
values are regrouped into bytes. In particular a canonical padded encoding
and its unpadded variant decode to the same bytes. -/
def base64DecodeNode (s : String) : List Nat :=
  b64DecVals (s.data.filterMap b64Val)

/-- `verifyShopifyWebhook` (src/server.js lines 24–47). The configured
secret is passed explicitly (the source reads the module-level
`SHOPIFY_WEBHOOK_SECRET`); `data` is the byte sequence HMAC'd (the source
hashes the UTF-8 bytes of its string argument); `hmacHeader` is
`req.get('X-Shopify-Hmac-Sha256')`, absent when the header is missing.

With no secret the check is skipped (line 27). Otherwise the base64 HMAC
digest is computed and compared to the header with
`crypto.timingSafeEqual(Buffer.from(calculatedHmac, 'base64'),
Buffer.from(hmacHeader, 'base64'))`; a missing header makes
`Buffer.from(undefined)` throw and a length mismatch makes
`timingSafeEqual` throw, both caught and returned as `false`
(lines 43–46). -/
def verifyShopifyWebhook (secret : Option (List Nat)) (data : List Nat)
    (hmacHeader : Option String) : Bool :=
  match secret with
  | none => true
  | some key =>
    let calculatedHmac := base64Encode (hmacSHA256 key data)
    match hmacHeader with
    | none => false
    | some h =>
      let cb := base64DecodeNode calculatedHmac
      let hb := base64DecodeNode h
      if hb.length = cb.length then hb == cb else false

/-! ## Base64 lemmas -/

/-- Decoding inverts the alphabet on 6-bit values. -/
theorem b64Val_b64Chr : ∀ n, n < 64 → b64Val (b64Chr n) = some n := by decide

/-- Every byte produced by `wordsToBytes` is below 256. -/
theorem wordsToBytes_lt (ws : List Nat) : ∀ b ∈ wordsToBytes ws, b < 256 := by
  induction ws with
  | nil => simp [wordsToBytes]
  | cons w rest ih =>
    intro b hb
    simp only [wordsToBytes, List.mem_cons] at hb
    rcases hb with rfl | rfl | rfl | rfl | hb
    · omega
    · omega
    · omega
    · omega
    · exact ih b hb

/-- SHA-256 outputs bytes. -/
theorem sha256_bytes_lt (m : List Nat) : ∀ b ∈ sha256 m, b < 256 := by
  unfold sha256
  exact wordsToBytes_lt _

/-- HMAC-SHA-256 outputs bytes. -/
theorem hmacSHA256_bytes_lt (key msg : List Nat) :
    ∀ b ∈ hmacSHA256 key msg, b < 256 := by
  unfold hmacSHA256
  exact sha256_bytes_lt _

/-- The forgiving decoder inverts the canonical encoder on byte lists. -/
theorem b64_decode_encode (l : List Nat) (h : ∀ b ∈ l, b < 256) :
    b64DecVals ((b64EncChars l).filterMap b64Val) = l := by
  induction l using b64EncChars.induct with
  | case1 => rfl
  | case2 a =>
    have ha := h a (by simp)
    have hpad : b64Val ('=') = none := by decide
    have h0 := b64Val_b64Chr (a / 4) (by omega)
    have h1 := b64Val_b64Chr (a % 4 * 16) (by omega)
    simp [b64EncChars, List.filterMap_cons, h0, h1, hpad, b64DecVals]
    omega
  | case3 a b =>
    have ha := h a (by simp)
    have hb := h b (by simp)
    have h0 := b64Val_b64Chr (a / 4) (by omega)
    have h1 := b64Val_b64Chr (a % 4 * 16 + b / 16) (by omega)
    have h2 := b64Val_b64Chr (b % 16 * 4) (by omega)
    have hpad : b64Val ('=') = none := by decide
    simp [b64EncChars, List.filterMap_cons, h0, h1, h2, hpad, b64DecVals]
    omega
  | case4 a b c rest ih =>
    have ha := h a (by simp)
    have hb := h b (by simp)
    have hc := h c (by simp)
    have h0 := b64Val_b64Chr (a / 4) (by omega)
    have h1 := b64Val_b64Chr (a % 4 * 16 + b / 16) (by omega)
    have h2 := b64Val_b64Chr (b % 16 * 4 + c / 64) (by omega)
    have h3 := b64Val_b64Chr (c % 64) (by omega)
    have ih' := ih (fun x hx => h x (by simp [hx]))
    simp [b64EncChars, List.filterMap_cons, h0, h1, h2, h3, b64DecVals, ih']
    omega

/-- Decoding the canonical encoding of a byte list recovers it. -/
theorem base64_decode_encode (l : List Nat) (h : ∀ b ∈ l, b < 256) :
    base64DecodeNode (base64Encode l) = l := by
  unfold base64DecodeNode base64Encode
  exact b64_decode_encode l h

/-! ## JavaScript JSON values

The webhook handler manipulates the middleware-parsed request body as a
dynamic JavaScript value. `Json` models the JSON subset exercised here:
`null`, booleans, non-negative integer numbers, escape-free strings, arrays
and objects (a documented restriction of the full JSON grammar; Shopify
payload fields used by the server are strings, integers, arrays and
objects). -/

inductive Json where
  | null
  | bool (b : Bool)
  | num (n : Nat)
  | str (s : String)
  | arr (elems : List Json)
  | obj (fields : List (String × Json))

/-- First-match field lookup (duplicate keys do not occur in the payloads
modelled here). -/
def lookupField : List (String × Json) → String → Option Json
  | [], _ => none
  | (k, v) :: rest, key => if k = key then some v else lookupField rest key

/-- JavaScript property access `v.k`: a field of an object, `undefined`
(`none`) on any other value. (Access on `null` throws; the call sites below
only reach `jGet` on non-null values.) -/
def jGet : Json → String → Option Json
  | .obj fs, k => lookupField fs k
  | _, _ => none

/-- JavaScript truthiness of a JSON value. -/
def jsTruthy : Json → Bool
  | .null => false
  | .bool b => b
  | .num n => n != 0
  | .str s => s != ""
  | .arr _ => true
  | .obj _ => true

/-- Truthiness of a possibly-`undefined` value. -/
def jsTruthyO : Option Json → Bool
  | none => false
  | some v => jsTruthy v

/-- Is the value JSON `null`? -/
def jsonIsNull : Json → Bool
  | .null => true
  | _ => false

mutual
/-- JavaScript string coercion `String(v)` as used by template literals
(fuel-indexed for nested arrays; arrays join their elements with `,`). -/
def jsCoerce : Nat → Json → String
  | _, .null => "null"
  | _, .bool true => "true"
  | _, .bool false => "false"
  | _, .num n => toString n
  | _, .str s => s
  | _, .obj _ => "[object Object]"
  | 0, .arr _ => ""
  | f + 1, .arr xs => jsCoerceList f xs
/-- Comma-joined coercion of array elements. -/
def jsCoerceList : Nat → List Json → String
  | _, [] => ""
  | 0, _ => ""
  | f + 1, [x] => jsCoerce f x
  | f + 1, x :: y :: rest => jsCoerce f x ++ "," ++ jsCoerceList f (y :: rest)
end

/-- Coercion fuel ample for every payload considered. -/
def JFUEL : Nat := 1000

/-- Template interpolation `${v}` of a possibly-`undefined` value. -/
def jsCoerceO : Option Json → String
  | none => "undefined"
  | some v => jsCoerce JFUEL v

/-- JavaScript `${v || lit}`: the coercion of `v` when truthy, else the
literal. -/
def jsOrLit (v : Option Json) (dflt : String) : String :=
  if jsTruthyO v then jsCoerceO v else dflt

mutual
/-- `JSON.stringify` (compact form, no spaces), fuel-indexed. -/
def stringifyJson : Nat → Json → String
  | _, .null => "null"
  | _, .bool true => "true"
  | _, .bool false => "false"
  | _, .num n => toString n
  | _, .str s => "\"" ++ s ++ "\""
  | 0, .arr _ => ""
  | f + 1, .arr xs => "[" ++ stringifyArr f xs ++ "]"
  | 0, .obj _ => ""
  | f + 1, .obj fs => "\x7b" ++ stringifyFields f fs ++ "\x7d"
/-- Comma-joined serialization of array elements. -/
def stringifyArr : Nat → List Json → String
  | _, [] => ""
  | 0, _ => ""
  | f + 1, [x] => stringifyJson f x
  | f + 1, x :: y :: rest => stringifyJson f x ++ "," ++ stringifyArr f (y :: rest)
/-- Comma-joined serialization of object fields. -/
def stringifyFields : Nat → List (String × Json) → String
  | _, [] => ""
  | 0, _ => ""
  | f + 1, [(k, v)] => "\"" ++ k ++ "\":" ++ stringifyJson f v
  | f + 1, (k, v) :: y :: rest =>
    "\"" ++ k ++ "\":" ++ stringifyJson f v ++ "," ++ stringifyFields f (y :: rest)
end

/-! ## JSON parsing (`JSON.parse`, as run by the `express.json` middleware) -/

/-- Skip JSON whitespace. -/
def skipWs : List Char → List Char
  | c :: rest =>
    if c = ' ' ∨ c = '\n' ∨ c = '\t' ∨ c = '\r' then skipWs rest else c :: rest
  | [] => []

/-- Consume the content of a string literal up to the closing quote
(escape sequences are outside the modelled subset). -/
def strContent : List Char → Option (List Char × List Char)
  | [] => none
  | c :: rest =>
    if c = '"' then some ([], rest)
    else if c = '\\' then none
    else (strContent rest).map (fun p => (c :: p.1, p.2))

/-- Consume a digit run into an accumulator. -/
def digitsAcc : List Char → Nat → Nat × List Char
  | c :: rest, acc =>
    if '0' ≤ c ∧ c ≤ '9' then digitsAcc rest (acc * 10 + (c.toNat - 48))
    else (acc, c :: rest)
  | [], acc => (acc, [])

mutual
/-- Recursive-descent JSON value parser (fuel-indexed, structural). -/
def parseVal : Nat → List Char → Option (Json × List Char)
  | 0, _ => none
  | f + 1, cs =>
    match skipWs cs with
    | '\x7b' :: rest =>
      (match skipWs rest with
       | '\x7d' :: r2 => some (.obj [], r2)
       | r2 => parseObjTail f r2 [])
    | '[' :: rest =>
      (match skipWs rest with
       | ']' :: r2 => some (.arr [], r2)
       | r2 => parseArrTail f r2 [])
    | '"' :: rest => (strContent rest).map (fun p => (.str (String.mk p.1), p.2))
    | 't' :: 'r' :: 'u' :: 'e' :: rest => some (.bool true, rest)
    | 'f' :: 'a' :: 'l' :: 's' :: 'e' :: rest => some (.bool false, rest)
    | 'n' :: 'u' :: 'l' :: 'l' :: rest => some (.null, rest)
    | c :: rest =>
      if '0' ≤ c ∧ c ≤ '9' then
        match digitsAcc rest (c.toNat - 48) with
        | (n, r2) => some (.num n, r2)
      else none
    | [] => none
/-- Parse the elements of a non-empty array after `[`. -/
def parseArrTail : Nat → List Char → List Json → Option (Json × List Char)
  | 0, _, _ => none
  | f + 1, cs, acc =>
    match parseVal f cs with
    | none => none
    | some (v, rest) =>
      match skipWs rest with
      | ',' :: r2 => parseArrTail f r2 (acc ++ [v])
      | ']' :: r2 => some (.arr (acc ++ [v]), r2)
      | _ => none
/-- Parse the members of a non-empty object after `\x7b`. -/
def parseObjTail : Nat → List Char → List (String × Json) →
    Option (Json × List Char)
  | 0, _, _ => none
  | f + 1, cs, acc =>
    match skipWs cs with
    | '"' :: rest =>
      (match strContent rest with
       | none => none
       | some (kcs, r2) =>
         match skipWs r2 with
         | ':' :: r3 =>
           (match parseVal f r3 with
            | none => none
            | some (v, r4) =>
              match skipWs r4 with
              | ',' :: r5 => parseObjTail f r5 (acc ++ [(String.mk kcs, v)])
              | '\x7d' :: r5 => some (.obj (acc ++ [(String.mk kcs, v)]), r5)
              | _ => none)
         | _ => none)
    | _ => none
end

/-- `JSON.parse` over a character stream: one value plus trailing
whitespace. -/
def jsonParse (cs : List Char) : Option Json :=
  match parseVal (4 * cs.length + 8) cs with
  | some (v, rest) => if skipWs rest = [] then some v else none
  | none => none

/-- The `express.json({ limit: '50mb' })` middleware (src/server.js line 7)
run on the raw request bytes: strict mode accepts only a top-level object
or array; anything else raises the `SyntaxError` that reaches the error
middleware. (Bytes are taken as code points: the payloads modelled are
ASCII.) -/
def jsonParseTop (raw : List Nat) : Option Json :=
  match jsonParse (raw.map Char.ofNat) with
  | some (.obj fs) => some (.obj fs)
  | some (.arr xs) => some (.arr xs)
  | _ => none

/-! ## The Transformer (message formatting, src/server.js lines 166–210) -/

/-- Customer display name (lines 166–168):
`order.customer ? ` ``${first_name || ''} ${last_name || ''}`` `.trim() :
'Guest Customer'`. -/
def customerName (order : Json) : String :=
  match jGet order "customer" with
  | some cust =>
    if jsTruthy cust then
      (jsOrLit (jGet cust "first_name") "" ++ " " ++
        jsOrLit (jGet cust "last_name") "").trim
    else "Guest Customer"
  | none => "Guest Customer"

/-- One rendered line item (line 172):
`• ${item.title} (Qty: ${item.quantity}) - ${order.currency} ${item.price}`. -/
def itemLine (order item : Json) : String :=
  "• " ++ jsCoerceO (jGet item "title") ++ " (Qty: " ++
    jsCoerceO (jGet item "quantity") ++ ") - " ++
    jsCoerceO (jGet order "currency") ++ " " ++ jsCoerceO (jGet item "price")

/-- `Array.prototype.join('\n')`. -/
def joinNl : List String → String
  | [] => ""
  | [s] => s
  | s :: y :: rest => s ++ "\n" ++ joinNl (y :: rest)

/-- The rendered item list (lines 170–173): the first five items only. -/
def itemsListStr (order : Json) (items : List Json) : String :=
  joinNl ((items.take 5).map (itemLine order))

/-- Shipping block (lines 175–179). -/
def shippingAddressStr (order : Json) : String :=
  match jGet order "shipping_address" with
  | some sa =>
    if jsTruthy sa then
      jsOrLit (jGet sa "address1") "" ++ "\n" ++
        jsOrLit (jGet sa "city") "" ++ ", " ++
        jsOrLit (jGet sa "province") "" ++ " " ++
        jsOrLit (jGet sa "zip") "" ++ "\n" ++
        jsOrLit (jGet sa "country") ""
    else "No shipping address provided"
  | none => "No shipping address provided"

/-- The notification template (lines 190–210), with `order.line_items`
already known to be the array `items`. `toLocale` abstracts
`new Date(order.created_at).toLocaleString('en-IN', …)` (line 181), a total
platform function (an invalid date renders as a fallback string, it does
not throw). The template literal is written as a concatenation of its
segments and interpolated fields. -/
def buildMessageFromItems (toLocale : Option Json → String) (order : Json)
    (items : List Json) : String :=
  "🛍️ NEW ORDER ALERT!\n\n📋 Order #" ++ jsCoerceO (jGet order "order_number") ++
  "\n" ++ "👤 Customer: " ++ customerName order ++
  "\n" ++ "📧 Email: " ++ jsOrLit (jGet order "email") "N/A" ++
  "\n" ++ "📱 Phone: " ++ jsOrLit (jGet order "phone") "N/A" ++
  "\n\n💰 Total Amount: " ++ jsCoerceO (jGet order "currency") ++ " " ++
    jsCoerceO (jGet order "total_price") ++
  "\n📦 Total Items: " ++ toString items.length ++
  "\n\n" ++ "🛒 Items Ordered:\n" ++ itemsListStr order items ++
  (if 5 < items.length then "\n... and more items" else "") ++
  "\n\n📍 Shipping Address:\n" ++ shippingAddressStr order ++
  "\n\n🕒 Order Time: " ++ toLocale (jGet order "created_at") ++
  "\n🏪 Store: AD Plants Shop\n\n---\nPowered by AD Plants Webhook System"

/-- Message construction (lines 166–210) as it can throw: line 170 calls
`order.line_items.slice(0, 5)` and line 172 maps `item => item.title …`
over the result, so a missing or non-array `line_items` — or a `null`
among the first five items — raises a `TypeError`, modelled as
`Except.error` with the corresponding message. -/
def buildMessage (toLocale : Option Json → String) (order : Json) :
    Except String String :=
  match jGet order "line_items" with
  | some (.arr items) =>
    if (items.take 5).any jsonIsNull then
      .error "Cannot read properties of null (reading 'title')"
    else .ok (buildMessageFromItems toLocale order items)
  | some .null => .error "Cannot read properties of null (reading 'slice')"
  | some (.str _) => .error "order.line_items.slice(...).map is not a function"
  | some (.num _) => .error "order.line_items.slice is not a function"
  | some (.bool _) => .error "order.line_items.slice is not a function"
  | some (.obj _) => .error "order.line_items.slice is not a function"
  | none => .error "Cannot read properties of undefined (reading 'slice')"

/-! ## The Notifier (`sendWhatsAppMessage`, src/server.js lines 50–85) -/

/-- The three result shapes `sendWhatsAppMessage` can resolve with:
`{success:false, reason}` (credentials absent, nothing sent),
`{success:true, data}` (HTTP call resolved), `{success:false, error}`
(HTTP call rejected). -/
inductive WaResult where
  | skipped (reason : String)
  | sent (data : String)
  | failed (err : String)

/-- The `.success` flag of the result object. -/
def WaResult.isSuccess : WaResult → Bool
  | .sent _ => true
  | _ => false

/-- JavaScript truthiness of an optional environment string (an unset or
empty variable is falsy). -/
def envTruthy : Option String → Bool
  | none => false
  | some s => s != ""

/-- `sendWhatsAppMessage` (lines 50–85). `net` is the oracle for the single
`axios.post` call (resolved body or rejection message); the returned
boolean records whether that outbound HTTP request was attempted at all.
With falsy `WHATSAPP_TOKEN` or `PHONE_NUMBER_ID` the function logs and
returns `{success:false, reason:'No WhatsApp credentials'}` without
touching the network (lines 51–57). -/
def sendWhatsAppMessage (token phoneId : Option String)
    (net : Except String String) (message : String) : WaResult × Bool :=
  if envTruthy token && envTruthy phoneId then
    match net with
    | .ok d => (.sent d, true)
    | .error e => (.failed e, true)
  else (.skipped "No WhatsApp credentials", false)

/-! ## The webhook route and request pipeline -/

/-- Response bodies the server can produce on the order-webhook path. -/
inductive RespBody where
  | unauthorized
  | errorLogged (error : String) (processing_time_ms : Nat)
  | success (order_number : Option Json) (processing_time_ms : Nat)
      (whatsapp_sent : Bool)
  | serverError

/-- An HTTP response: status code and JSON body shape. -/
structure HttpResp where
  status : Nat
  body : RespBody

/-- Observable pipeline events, in execution order: the middleware/handler
parse of the untrusted payload, the `verifyShopifyWebhook` call, the
outbound WhatsApp HTTP request. -/
inductive Ev where
  | parseOrder
  | verifySignature
  | sendWhatsApp
deriving DecidableEq

/-- The handler body after the verification gate (lines 166–227): format
the message (can throw → caught at line 229 → 200 `error_logged`), send
the WhatsApp notification, answer 200 with
`{status:'success', order_number, processing_time_ms, whatsapp_sent}`. -/
def handlerRest (token phoneId : Option String)
    (toLocale : Option Json → String) (net : Except String String)
    (order : Json) (elapsed : Nat) : List Ev × HttpResp :=
  match buildMessage toLocale order with
  | .error e => ([], ⟨200, .errorLogged e elapsed⟩)
  | .ok msg =>
    let r := sendWhatsAppMessage token phoneId net msg
    (if r.2 then [Ev.sendWhatsApp] else [],
      ⟨200, .success (jGet order "order_number") elapsed r.1.isSuccess⟩)

/-- The `POST /webhooks/orders/create` handler (lines 141–241). `reqBody`
is `req.body` as left by the middleware: a parsed JSON value, or
`undefined` (`none`) when no body parser matched the request.

With `req.body` undefined, line 149 computes `JSON.stringify(undefined)`
(which is `undefined`) and line 153 throws reading
`order.order_number` — before any verification — and the catch at line 229
answers 200 `error_logged`. With a parsed body, the verified "body" is
`JSON.stringify(req.body)` (line 149, a re-serialization — the raw bytes
are no longer available), the gate at line 160 runs only when the secret
is configured, and failure answers 401. -/
def runHandler (secret : Option (List Nat)) (token phoneId : Option String)
    (toLocale : Option Json → String) (net : Except String String)
    (hmacHeader : Option String) (reqBody : Option Json) (elapsed : Nat) :
    List Ev × HttpResp :=
  match reqBody with
  | none =>
    ([], ⟨200, .errorLogged
      "Cannot read properties of undefined (reading 'order_number')" elapsed⟩)
  | some order =>
    let body := strBytes (stringifyJson JFUEL order)
    match secret with
    | none => handlerRest token phoneId toLocale net order elapsed
    | some key =>
      if verifyShopifyWebhook (some key) body hmacHeader then
        let er := handlerRest token phoneId toLocale net order elapsed
        (Ev.verifySignature :: er.1, er.2)
      else ([Ev.verifySignature], ⟨401, .unauthorized⟩)

/-- A request's trip through the app (src/server.js lines 6–8, 141–241,
260–263): the `express.json` middleware parses an `application/json` body
(an empty body yields `{}` without parsing; a body it cannot parse raises
`SyntaxError`, which skips the route and lands in the error middleware at
line 260 — `res.status(500)`); a request of another content type reaches
the handler with `req.body` undefined (the `express.raw` middleware at
line 8 is also typed `application/json`). -/
def processRequest (secret : Option (List Nat)) (token phoneId : Option String)
    (toLocale : Option Json → String) (net : Except String String)
    (ctJson : Bool) (raw : List Nat) (hmacHeader : Option String)
    (elapsed : Nat) : List Ev × HttpResp :=
  if ctJson then
    if raw = [] then
      runHandler secret token phoneId toLocale net hmacHeader
        (some (.obj [])) elapsed
    else
      match jsonParseTop raw with
      | some j =>
        let er := runHandler secret token phoneId toLocale net hmacHeader
          (some j) elapsed
        (Ev.parseOrder :: er.1, er.2)
      | none => ([], ⟨500, .serverError⟩)
  else
    runHandler secret token phoneId toLocale net hmacHeader none elapsed

/-- The response part of the pipeline. -/
def respOf (secret : Option (List Nat)) (token phoneId : Option String)
    (toLocale : Option Json → String) (net : Except String String)
    (ctJson : Bool) (raw : List Nat) (hmacHeader : Option String)
    (elapsed : Nat) : HttpResp :=
  (processRequest secret token phoneId toLocale net ctJson raw hmacHeader
    elapsed).2

/-- Substring containment: `pat` occurs contiguously in `s`. -/
def ContainsSub (s pat : String) : Prop :=
  ∃ x y, s = x ++ pat ++ y

/-! ## Claims about the Authenticator -/

/-- Claim C5: with no webhook secret configured, `verifyShopifyWebhook`
returns `true` for every body and every signature header (the documented
permissive mode, src/server.js lines 25–28). -/
theorem c5_verify_permissive_no_secret (data : List Nat)
    (hd : Option String) : verifyShopifyWebhook none data hd = true := rfl

/-- Claim C2 (amended): with a configured secret, `verifyShopifyWebhook`
returns `true` exactly when a header is present whose forgiving base64
decoding equals the HMAC-SHA-256 digest of the exact input bytes. The
comparison is between *decoded digests* (line 36–39 compares
`Buffer.from(calculatedHmac,'base64')` with `Buffer.from(header,'base64')`),
so the canonical padded base64 string passes but so do non-canonical
encodings of the same digest (e.g. the unpadded variant); any other header,
malformed or missing, yields `false` — never an exception. -/
theorem c2_verify_iff_decoded_digest (key data : List Nat)
    (hd : Option String) :
    verifyShopifyWebhook (some key) data hd = true ↔
    ∃ h, hd = some h ∧ base64DecodeNode h = hmacSHA256 key data := by
  have hcb : base64DecodeNode (base64Encode (hmacSHA256 key data)) =
      hmacSHA256 key data :=
    base64_decode_encode _ (hmacSHA256_bytes_lt key data)
  cases hd with
  | none =>
    constructor
    · intro hv
      cases hv
    · rintro ⟨h, heq, -⟩
      cases heq
  | some h =>
    rw [show verifyShopifyWebhook (some key) data (some h) =
        (if (base64DecodeNode h).length =
            (base64DecodeNode (base64Encode (hmacSHA256 key data))).length
         then base64DecodeNode h ==
            base64DecodeNode (base64Encode (hmacSHA256 key data))
         else false) from rfl, hcb]
    constructor
    · intro hv
      by_cases hl : (base64DecodeNode h).length = (hmacSHA256 key data).length
      · rw [if_pos hl] at hv
        exact ⟨h, rfl, eq_of_beq hv⟩
      · rw [if_neg hl] at hv
        cases hv
    · rintro ⟨h2, heq, hdec⟩
      rw [Option.some_inj] at heq
      rw [heq, hdec]
      simp

/-- Claim C2 counterexample: the original claim demands `true` *only* for
the header that equals the canonical base64 string. For secret `"k"` and
body `"x"`, the header obtained by dropping the trailing `=` of the
canonical encoding is a different string yet still verifies. -/
theorem c2_counterexample_unpadded_header :
    verifyShopifyWebhook (some (strBytes "k")) (strBytes "x")
      (some (String.mk
        (b64EncChars (hmacSHA256 (strBytes "k") (strBytes "x"))).dropLast)) =
      true ∧
    String.mk (b64EncChars (hmacSHA256 (strBytes "k") (strBytes "x"))).dropLast ≠
      base64Encode (hmacSHA256 (strBytes "k") (strBytes "x")) := by
  constructor
  · decide
  · decide

/-- Claim C1: the spec requires the HMAC to be computed over the exact
bytes received on the wire. The code instead verifies
`JSON.stringify(req.body)` (line 149), a re-serialization of the
middleware-parsed body. Concretely: for the wire body `{"a": 1}` (with a
space) and the *correct* signature of those exact raw bytes under secret
`"k"`, the pipeline answers 401, because the bytes it actually verifies
are the re-serialization `{"a":1}`, which differs from the wire bytes. -/
theorem c1_verification_uses_reserialized_body :
    respOf (some (strBytes "k")) none none (fun _ => "") (.error "") true
      (strBytes "\x7b\"a\": 1\x7d")
      (some (base64Encode (hmacSHA256 (strBytes "k")
        (strBytes "\x7b\"a\": 1\x7d")))) 0 =
      ⟨401, .unauthorized⟩ ∧
    jsonParseTop (strBytes "\x7b\"a\": 1\x7d") =
      some (.obj [("a", .num 1)]) ∧
    strBytes (stringifyJson JFUEL (.obj [("a", .num 1)])) ≠
      strBytes "\x7b\"a\": 1\x7d" := by
  refine ⟨rfl, rfl, ?_⟩
  decide

/-- Claim C3: the spec's invariant says no parse of the untrusted payload
may precede successful verification when a secret is configured. In the
code the `express.json` middleware parses the body before the handler even
runs (and line 150 binds it as `order` before line 160 verifies): on a
signed-endpoint request the observable event trace puts `parseOrder`
strictly before `verifySignature`. -/
theorem c3_parse_precedes_verification :
    (processRequest (some (strBytes "k")) none none (fun _ => "")
      (.error "") true (strBytes "\x7b\"a\": 1\x7d") none 0).1 =
      [Ev.parseOrder, Ev.verifySignature] := rfl

/-! ## Claims about the Notifier and handler error paths -/

/-- Claim C8: with absent credentials (missing token or missing sender
id), `sendWhatsAppMessage` returns the skipped outcome
`{success:false, reason:'No WhatsApp credentials'}` and attempts no
outbound HTTP request; conversely an outbound request is attempted only
when both credentials are present. -/
theorem c8_no_creds_skips_network (token phoneId : Option String)
    (net : Except String String) (message : String) :
    (token = none ∨ phoneId = none →
      sendWhatsAppMessage token phoneId net message =
        (.skipped "No WhatsApp credentials", false)) ∧
    ((sendWhatsAppMessage token phoneId net message).2 = true →
      token.isSome ∧ phoneId.isSome) := by
  constructor
  · rintro (rfl | rfl) <;> simp [sendWhatsAppMessage, envTruthy]
  · intro hsent
    cases token with
    | none => simp [sendWhatsAppMessage, envTruthy] at hsent
    | some t =>
      cases phoneId with
      | none => simp [sendWhatsAppMessage, envTruthy] at hsent
      | some p => exact ⟨rfl, rfl⟩

/-- Witness for C8 at a concrete input: token absent, sender id present,
network oracle ready — the call is skipped with the not-configured reason
and no request is attempted. -/
theorem c8_no_creds_skips_network_witness :
    sendWhatsAppMessage none (some "pid") (.ok "resp") "msg" =
      (.skipped "No WhatsApp credentials", false) :=
  (c8_no_creds_skips_network none (some "pid") (.ok "resp") "msg").1
    (Or.inl rfl)

/-- Claim C10: an order payload that passes (or skips) verification but
has no `line_items` field at all makes line 170
(`order.line_items.slice`) throw a `TypeError`, which the catch at line
229 converts into HTTP 200 with `status:'error_logged'` and the error
message — not a success response and not a 5xx. -/
theorem c10_missing_line_items_error_logged
    (secret : Option (List Nat)) (token phoneId : Option String)
    (toLocale : Option Json → String) (net : Except String String)
    (hmacHeader : Option String) (raw : List Nat) (j : Json) (elapsed : Nat)
    (hraw : raw ≠ [])
    (hparse : jsonParseTop raw = some j)
    (hli : jGet j "line_items" = none)
    (hver : secret = none ∨
      verifyShopifyWebhook secret (strBytes (stringifyJson JFUEL j))
        hmacHeader = true) :
    respOf secret token phoneId toLocale net true raw hmacHeader elapsed =
      ⟨200, .errorLogged
        "Cannot read properties of undefined (reading 'slice')" elapsed⟩ := by
  cases secret with
  | none =>
    simp [respOf, processRequest, if_neg hraw, hparse, runHandler,
      handlerRest, buildMessage, hli]
  | some key =>
    have hv : verifyShopifyWebhook (some key)
        (strBytes (stringifyJson JFUEL j)) hmacHeader = true := by
      rcases hver with h | h
      · cases h
      · exact h
    simp [respOf, processRequest, if_neg hraw, hparse, runHandler, hv,
      handlerRest, buildMessage, hli]

/-- Witness for C10 at a concrete input: no secret configured, payload
`{"order_number": 1}` with no `line_items` — the response is 200 with
`error_logged` and the `TypeError` message. -/
theorem c10_missing_line_items_error_logged_witness :
    respOf none none none (fun _ => "") (.error "") true
      (strBytes "\x7b\"order_number\": 1\x7d") none 5 =
      ⟨200, .errorLogged
        "Cannot read properties of undefined (reading 'slice')" 5⟩ :=
  c10_missing_line_items_error_logged none none none (fun _ => "")
    (.error "") none (strBytes "\x7b\"order_number\": 1\x7d")
    (.obj [("order_number", .num 1)]) 5 (by decide) rfl rfl (Or.inl rfl)

/-- Claim C4 counterexample: the claim promises HTTP 200 with an
error-status body for any processing exception, naming "malformed
payload" as an instance. But a malformed JSON body (here `{"a": 1`
without the closing brace) raises `SyntaxError` inside the
`express.json` middleware, before the handler; it lands in the custom
error middleware (line 260), which answers **HTTP 500** — neither 401 nor
any 200. -/
theorem c4_counterexample_malformed_body_500 :
    respOf (some (strBytes "k")) (some "tok") (some "pid") (fun _ => "")
      (.ok "resp") true (strBytes "\x7b\"a\": 1") (some "sig") 7 =
      ⟨500, .serverError⟩ := rfl

/-- Claim C4 (amended): for requests to the order-webhook endpoint with a
JSON content type: a non-empty body the JSON body parser cannot parse is
answered 500 by the error middleware (not 200); when the body parses and
the configured-secret verification fails, the response is 401
`Unauthorized`; when the body parses and verification passes or is
skipped, the response is always 200 — either
`{status:'error_logged', error, processing_time_ms}` when the handler
throws, or `{status:'success', order_number, processing_time_ms,
whatsapp_sent}` on success. -/
theorem c4_response_contract_amended
    (secret : Option (List Nat)) (key : List Nat)
    (token phoneId : Option String) (toLocale : Option Json → String)
    (net : Except String String) (raw : List Nat)
    (hmacHeader : Option String) (elapsed : Nat) (j : Json) :
    (raw ≠ [] → jsonParseTop raw = none →
      respOf secret token phoneId toLocale net true raw hmacHeader elapsed =
        ⟨500, .serverError⟩) ∧
    (raw ≠ [] → jsonParseTop raw = some j → secret = some key →
      verifyShopifyWebhook (some key) (strBytes (stringifyJson JFUEL j))
        hmacHeader = false →
      respOf secret token phoneId toLocale net true raw hmacHeader elapsed =
        ⟨401, .unauthorized⟩) ∧
    (raw ≠ [] → jsonParseTop raw = some j →
      (secret = none ∨
        verifyShopifyWebhook secret (strBytes (stringifyJson JFUEL j))
          hmacHeader = true) →
      (∃ e, respOf secret token phoneId toLocale net true raw hmacHeader
          elapsed = ⟨200, .errorLogged e elapsed⟩) ∨
      (∃ sent, respOf secret token phoneId toLocale net true raw hmacHeader
          elapsed =
        ⟨200, .success (jGet j "order_number") elapsed sent⟩)) := by
  refine ⟨?_, ?_, ?_⟩
  · intro hraw hnone
    simp [respOf, processRequest, if_neg hraw, hnone]
  · intro hraw hparse hsec hv
    subst hsec
    simp [respOf, processRequest, if_neg hraw, hparse, runHandler, hv]
  · intro hraw hparse hver
    have hrest : ∀ pre,
        (∃ e, (pre ++ (handlerRest token phoneId toLocale net j elapsed).1,
            (handlerRest token phoneId toLocale net j elapsed).2).2 =
          ⟨200, .errorLogged e elapsed⟩) ∨
        (∃ sent, (pre ++ (handlerRest token phoneId toLocale net j elapsed).1,
            (handlerRest token phoneId toLocale net j elapsed).2).2 =
          ⟨200, .success (jGet j "order_number") elapsed sent⟩) := by
      intro pre
      cases hb : buildMessage toLocale j with
      | error e => exact Or.inl ⟨e, by simp [handlerRest, hb]⟩
      | ok m =>
        exact Or.inr ⟨(sendWhatsAppMessage token phoneId net m).1.isSuccess,
          by simp [handlerRest, hb]⟩
    cases secret with
    | none =>
      have := hrest []
      simpa [respOf, processRequest, if_neg hraw, hparse, runHandler]
        using this
    | some k2 =>
      have hv : verifyShopifyWebhook (some k2)
          (strBytes (stringifyJson JFUEL j)) hmacHeader = true := by
        rcases hver with h | h
        · cases h
        · exact h
      have := hrest [Ev.verifySignature]
      simpa [respOf, processRequest, if_neg hraw, hparse, runHandler, hv]
        using this

/-- Witness for C4 at concrete inputs: a malformed body answers 500; a
parsed body with a configured secret and a missing signature header
answers 401; a parsed body with no secret answers 200 (here the
error-logged branch, since `line_items` is absent). -/
theorem c4_response_contract_amended_witness :
    respOf none none none (fun _ => "") (.error "x") true
      (strBytes "\x7b\"a\": 1") none 3 = ⟨500, .serverError⟩ ∧
    respOf (some (strBytes "k")) none none (fun _ => "") (.error "x") true
      (strBytes "\x7b\"a\": 1\x7d") none 3 = ⟨401, .unauthorized⟩ ∧
    ((∃ e, respOf none none none (fun _ => "") (.error "x") true
        (strBytes "\x7b\"a\": 1\x7d") none 3 = ⟨200, .errorLogged e 3⟩) ∨
     (∃ sent, respOf none none none (fun _ => "") (.error "x") true
        (strBytes "\x7b\"a\": 1\x7d") none 3 =
          ⟨200, .success (jGet (.obj [("a", .num 1)]) "order_number") 3
            sent⟩)) :=
  ⟨(c4_response_contract_amended none [] none none (fun _ => "")
      (.error "x") (strBytes "\x7b\"a\": 1") none 3 .null).1
      (by decide) rfl,
   (c4_response_contract_amended (some (strBytes "k")) (strBytes "k") none
      none (fun _ => "") (.error "x") (strBytes "\x7b\"a\": 1\x7d") none 3
      (.obj [("a", .num 1)])).2.1 (by decide) rfl rfl rfl,
   (c4_response_contract_amended none [] none none (fun _ => "")
      (.error "x") (strBytes "\x7b\"a\": 1\x7d") none 3
      (.obj [("a", .num 1)])).2.2 (by decide) rfl (Or.inl rfl)⟩

/-! ## Claims about the Transformer -/

/-- Claim C6: for an order whose optional fields — customer, email, phone,
shipping address — are all absent (and whose line items are a list of
item records, as the data model requires), message formatting does not
throw, and the output shows `Guest Customer` as the display name and
`N/A` for both email and phone. -/
theorem c6_guest_customer_placeholders (toLocale : Option Json → String)
    (j : Json) (items : List Json)
    (hcust : jGet j "customer" = none) (hemail : jGet j "email" = none)
    (hphone : jGet j "phone" = none)
    (hship : jGet j "shipping_address" = none)
    (hli : jGet j "line_items" = some (.arr items))
    (hnn : (items.take 5).any jsonIsNull = false) :
    ∃ m, buildMessage toLocale j = Except.ok m ∧
      ContainsSub m "👤 Customer: Guest Customer\n📧 Email: N/A\n📱 Phone: N/A" := by
  refine ⟨buildMessageFromItems toLocale j items, ?_, ?_⟩
  · simp [buildMessage, hli, hnn]
  · have hcn : customerName j = "Guest Customer" := by
      simp [customerName, hcust]
    have hem : jsOrLit (jGet j "email") "N/A" = "N/A" := by
      rw [hemail]; rfl
    have hph : jsOrLit (jGet j "phone") "N/A" = "N/A" := by
      rw [hphone]; rfl
    refine ⟨"🛍️ NEW ORDER ALERT!\n\n📋 Order #" ++
        jsCoerceO (jGet j "order_number") ++ "\n",
      "\n\n💰 Total Amount: " ++ jsCoerceO (jGet j "currency") ++ " " ++
        jsCoerceO (jGet j "total_price") ++ "\n📦 Total Items: " ++
        toString items.length ++ "\n\n" ++ "🛒 Items Ordered:\n" ++
        itemsListStr j items ++
        (if 5 < items.length then "\n... and more items" else "") ++
        "\n\n📍 Shipping Address:\n" ++ shippingAddressStr j ++
        "\n\n🕒 Order Time: " ++ toLocale (jGet j "created_at") ++
        "\n🏪 Store: AD Plants Shop\n\n---\nPowered by AD Plants Webhook System",
      ?_⟩
    rw [show ("👤 Customer: Guest Customer\n📧 Email: N/A\n📱 Phone: N/A" :
        String) =
      "👤 Customer: " ++ "Guest Customer" ++ ("\n" ++ ("📧 Email: " ++
        ("N/A" ++ ("\n" ++ ("📱 Phone: " ++ "N/A"))))) from by decide]
    unfold buildMessageFromItems
    rw [hcn, hem, hph]
    simp only [String.append_assoc]

/-- Witness for C6 at a concrete input: an order with only an empty
`line_items` list. -/
theorem c6_guest_customer_placeholders_witness :
    ∃ m, buildMessage (fun _ => "")
        (.obj [("line_items", Json.arr [])]) = Except.ok m ∧
      ContainsSub m "👤 Customer: Guest Customer\n📧 Email: N/A\n📱 Phone: N/A" :=
  c6_guest_customer_placeholders (fun _ => "")
    (.obj [("line_items", Json.arr [])]) [] rfl rfl rfl rfl rfl rfl

/-- Claim C7 (amended): for more than five line items the rendered items
section is built from exactly the first five items in order
(`itemsListStr` only consumes `items.take 5`) followed by the truncation
notice; items beyond the fifth contribute nothing to the message, so a
later item's title can appear only where its text already occurs in the
parts built from the first five items or the other rendered fields. For an
empty item list the items section is empty and formatting does not
throw. -/
theorem c7_items_truncation_amended (toLocale : Option Json → String)
    (j : Json) (items : List Json)
    (hli : jGet j "line_items" = some (.arr items))
    (hnn : (items.take 5).any jsonIsNull = false) :
    (5 < items.length →
      ∃ m, buildMessage toLocale j = Except.ok m ∧
        itemsListStr j items = itemsListStr j (items.take 5) ∧
        ContainsSub m ("🛒 Items Ordered:\n" ++ itemsListStr j items ++
          "\n... and more items")) ∧
    (items = [] →
      ∃ m, buildMessage toLocale j = Except.ok m ∧
        itemsListStr j items = "" ∧
        ContainsSub m "🛒 Items Ordered:\n\n\n📍 Shipping Address:\n") := by
  constructor
  · intro h5
    refine ⟨buildMessageFromItems toLocale j items,
      by simp [buildMessage, hli, hnn],
      by simp [itemsListStr, List.take_take], ?_⟩
    refine ⟨"🛍️ NEW ORDER ALERT!\n\n📋 Order #" ++
        jsCoerceO (jGet j "order_number") ++ "\n" ++ "👤 Customer: " ++
        customerName j ++ "\n" ++ "📧 Email: " ++
        jsOrLit (jGet j "email") "N/A" ++ "\n" ++ "📱 Phone: " ++
        jsOrLit (jGet j "phone") "N/A" ++ "\n\n💰 Total Amount: " ++
        jsCoerceO (jGet j "currency") ++ " " ++
        jsCoerceO (jGet j "total_price") ++ "\n📦 Total Items: " ++
        toString items.length ++ "\n\n",
      "\n\n📍 Shipping Address:\n" ++ shippingAddressStr j ++
        "\n\n🕒 Order Time: " ++ toLocale (jGet j "created_at") ++
        "\n🏪 Store: AD Plants Shop\n\n---\nPowered by AD Plants Webhook System",
      ?_⟩
    unfold buildMessageFromItems
    rw [if_pos h5]
    simp only [String.append_assoc]
  · intro h0
    subst h0
    refine ⟨buildMessageFromItems toLocale j [],
      by simp [buildMessage, hli], rfl, ?_⟩
    refine ⟨"🛍️ NEW ORDER ALERT!\n\n📋 Order #" ++
        jsCoerceO (jGet j "order_number") ++ "\n" ++ "👤 Customer: " ++
        customerName j ++ "\n" ++ "📧 Email: " ++
        jsOrLit (jGet j "email") "N/A" ++ "\n" ++ "📱 Phone: " ++
        jsOrLit (jGet j "phone") "N/A" ++ "\n\n💰 Total Amount: " ++
        jsCoerceO (jGet j "currency") ++ " " ++
        jsCoerceO (jGet j "total_price") ++ "\n📦 Total Items: " ++
        toString (List.length ([] : List Json)) ++ "\n\n",
      shippingAddressStr j ++
        "\n\n🕒 Order Time: " ++ toLocale (jGet j "created_at") ++
        "\n🏪 Store: AD Plants Shop\n\n---\nPowered by AD Plants Webhook System",
      ?_⟩
    rw [show ("🛒 Items Ordered:\n\n\n📍 Shipping Address:\n" : String) =
      "🛒 Items Ordered:\n" ++ ("" ++ ("" ++ "\n\n📍 Shipping Address:\n"))
      from by decide]
    unfold buildMessageFromItems
    rw [show itemsListStr j [] = "" from rfl,
      if_neg (by decide : ¬ (5 < ([] : List Json).length))]
    simp only [String.append_assoc]

/-- A seven-item order used to witness the truncation behaviour. -/
def c7sevenItems : List Json :=
  [.obj [("title", .str "T1")], .obj [("title", .str "T2")],
   .obj [("title", .str "T3")], .obj [("title", .str "T4")],
   .obj [("title", .str "T5")], .obj [("title", .str "T6")],
   .obj [("title", .str "T7")]]

/-- The order wrapping `c7sevenItems`. -/
def c7sevenOrder : Json :=
  .obj [("line_items", .arr c7sevenItems)]

/-- An order with an empty line-item list. -/
def c7emptyOrder : Json :=
  .obj [("line_items", Json.arr [])]

/-- Witness for C7 at concrete inputs: a seven-item order (truncated list
plus notice) and an empty-list order (empty items section, no failure). -/
theorem c7_items_truncation_amended_witness :
    (∃ m, buildMessage (fun _ => "") c7sevenOrder = Except.ok m ∧
      itemsListStr c7sevenOrder c7sevenItems =
        itemsListStr c7sevenOrder (c7sevenItems.take 5) ∧
      ContainsSub m ("🛒 Items Ordered:\n" ++
        itemsListStr c7sevenOrder c7sevenItems ++ "\n... and more items")) ∧
    (∃ m, buildMessage (fun _ => "") c7emptyOrder = Except.ok m ∧
      itemsListStr c7emptyOrder [] = "" ∧
      ContainsSub m "🛒 Items Ordered:\n\n\n📍 Shipping Address:\n") :=
  ⟨(c7_items_truncation_amended (fun _ => "") c7sevenOrder c7sevenItems
      rfl rfl).1 (by decide),
   (c7_items_truncation_amended (fun _ => "") c7emptyOrder []
      rfl rfl).2 rfl⟩

/-- A line item as the data model describes it. -/
def c7dupItem (t : String) : Json :=
  .obj [("title", .str t), ("quantity", .num 1), ("price", .str "5")]

/-- A six-item order whose sixth item's title duplicates the first's. -/
def c7dupOrder : Json :=
  .obj [("order_number", .num 1), ("currency", .str "USD"),
    ("line_items", .arr [c7dupItem "Zq1", c7dupItem "Zq2", c7dupItem "Zq3",
      c7dupItem "Zq4", c7dupItem "Zq5", c7dupItem "Zq1"])]

/-- Claim C7 counterexample: the claim says the message "contains none of
the titles of items beyond the 5th". In `c7dupOrder` the item beyond the
fifth is titled `"Zq1"` (first conjunct), yet the formatted message does
contain `"Zq1"` — the duplicate text rendered for the *first* item — so
the universally stated exclusion is false. -/
theorem c7_counterexample_duplicate_title :
    ([c7dupItem "Zq1", c7dupItem "Zq2", c7dupItem "Zq3", c7dupItem "Zq4",
        c7dupItem "Zq5", c7dupItem "Zq1"].drop 5).map
        (fun it => jGet it "title") = [some (.str "Zq1")] ∧
    ∃ m, buildMessage (fun _ => "") c7dupOrder = Except.ok m ∧
      ContainsSub m "Zq1" :=
  ⟨rfl, buildMessageFromItems (fun _ => "") c7dupOrder
      [c7dupItem "Zq1", c7dupItem "Zq2", c7dupItem "Zq3", c7dupItem "Zq4",
        c7dupItem "Zq5", c7dupItem "Zq1"], rfl,
    "🛍️ NEW ORDER ALERT!\n\n📋 Order #1\n👤 Customer: Guest Customer\n📧 Email: N/A\n📱 Phone: N/A\n\n💰 Total Amount: USD undefined\n📦 Total Items: 6\n\n🛒 Items Ordered:\n• ",
    " (Qty: 1) - USD 5\n• Zq2 (Qty: 1) - USD 5\n• Zq3 (Qty: 1) - USD 5\n• Zq4 (Qty: 1) - USD 5\n• Zq5 (Qty: 1) - USD 5\n... and more items\n\n📍 Shipping Address:\nNo shipping address provided\n\n🕒 Order Time: \n🏪 Store: AD Plants Shop\n\n---\nPowered by AD Plants Webhook System",
    by decide⟩
